import Mathlib

/-!
Verification of the `maldi_learn` DRIAMS loading pipeline
(`src/maldi_learn/driams.py`) against its specification.

The embedding models:
* metadata tables (`pandas.DataFrame`) as a list of column names together
  with rows, a row being a total function from column names to cells;
* cell values as `Cell` (missing marker `na` — NaN in the source —, raw
  string tokens, and numeric codes produced by the label encoder);
* the filesystem (for the site validator) as an optional directory tree;
* the spectra store (for the loader) as a partial map from file names to
  parsed spectra.
-/

/-- A single table cell: the missing marker (`NaN` in pandas), a raw string
token, or a numeric label code. -/
inductive Cell where
  | na : Cell
  | str (s : String) : Cell
  | num (n : Int) : Cell
deriving DecidableEq, Repr

/-- A metadata table: column names plus rows; a row is a total function
from column names to cells (pandas row access by column label). -/
structure Table where
  cols : List String
  rows : List (String → Cell)

/-- `_metadata_columns` from `driams.py` line 21: the fixed descriptive
columns of every DRIAMS identifier table. -/
def _metadata_columns : List String :=
  ["code", "bruker_organism_best_match", "species"]

/-- Dictionary lookup (Python `dict` access used by the encoder's
replacement table): first binding of the key, if any. -/
def lookupEnc : List (String × Cell) → String → Option Cell
  | [], _ => none
  | (k, v) :: rest, s => if k = s then some v else lookupEnc rest s

/-- Modelled from the spec: the generic `LabelEncoder` of
`maldi_learn.preprocessing.generic` is not under `src/`; per the spec it
remaps raw label tokens according to a fixed dictionary and passes values
outside the recognized vocabulary through unchanged. Non-string cells
(already-numeric codes, missing markers) are untouched. -/
def cellEncode (enc : List (String × Cell)) : Cell → Cell
  | .str s => (lookupEnc enc s).getD (.str s)
  | c => c

/-- Modelled from the spec: the generic `LabelEncoder` applies the
encoding to every column outside its ignore list, leaving ignored
(descriptive) columns untouched. -/
def LabelEncoder.transformRow (enc : List (String × Cell)) (ignore : List String)
    (r : String → Cell) : String → Cell :=
  fun col => if col ∈ ignore then r col else cellEncode enc (r col)

/-- `encoder.fit_transform(metadata)`: transform every row of the table
(column set unchanged). -/
def LabelEncoder.fit_transform (enc : List (String × Cell)) (ignore : List String)
    (t : Table) : Table :=
  { t with rows := t.rows.map (LabelEncoder.transformRow enc ignore) }

/-- The fixed encoding dictionary of `DRIAMSLabelEncoder.__init__`
(`driams.py` lines 399–410); `np.nan` is the missing marker. -/
def DRIAMSLabelEncoder.encodings : List (String × Cell) :=
  [("R", .num 1),
   ("I", .num 1),
   ("S", .num 0),
   ("R(1)", .na),
   ("L(1)", .na),
   ("I(1)", .na),
   ("I(1), S(1)", .na),
   ("R(1), I(1)", .na),
   ("R(1), S(1)", .na),
   ("R(1), I(1), S(1)", .na)]

/-- The `DRIAMSLabelEncoder` acting on a single row: the DRIAMS encodings
scoped away from the descriptive `_metadata_columns`. -/
def DRIAMSLabelEncoder.transformRow : (String → Cell) → String → Cell :=
  LabelEncoder.transformRow DRIAMSLabelEncoder.encodings _metadata_columns

/-- `metadata.query('species == @species')` (`driams.py` line 363): keep
the rows whose `species` cell equals the requested species string. -/
def speciesFilter (t : Table) (species : String) : Table :=
  { t with rows := t.rows.filter (fun r => decide (r "species" = Cell.str species)) }

/-- `metadata[_metadata_columns + antibiotics]` (`driams.py` line 366):
project the table to the descriptive columns plus the requested
antibiotics. Rows are total functions, so only the column list changes. -/
def projectCols (t : Table) (antibiotics : List String) : Table :=
  { t with cols := _metadata_columns ++ antibiotics }

/-- `metadata[antibiotics].isna().sum(axis='columns')` for one row: the
number of requested antibiotic columns holding the missing marker. -/
def naCount (antibiotics : List String) (r : String → Cell) : Nat :=
  (antibiotics.filter (fun a => decide (r a = Cell.na))).length

/-- The missing-value handling step of `_load_metadata` (`driams.py`
lines 373–380): row filtering according to the policy string. -/
def applyPolicy (t : Table) (antibiotics : List String) (policy : String) : Table :=
  if policy = "remove_if_all_missing" then
    { t with rows :=
        t.rows.filter (fun r => decide (naCount antibiotics r ≠ antibiotics.length)) }
  else if policy = "remove_if_any_missing" then
    { t with rows := t.rows.filter (fun r => decide (naCount antibiotics r = 0)) }
  else
    t

/-- The pipeline of `_load_metadata` up to (and excluding) the
missing-value step: species filter, column projection, then the optional
encoder (`driams.py` lines 363–370). -/
def prePolicy (t : Table) (species : String) (antibiotics : List String)
    (encoder : Option (List (String × Cell))) : Table :=
  match encoder with
  | some enc =>
      LabelEncoder.fit_transform enc _metadata_columns
        (projectCols (speciesFilter t species) antibiotics)
  | none => projectCols (speciesFilter t species) antibiotics

/-- `_load_metadata` (`driams.py` lines 337–382), starting from the
already-parsed identifier table (the CSV read with `-` as missing marker
is the input `t`) and an already-list-normalized antibiotics argument.
The `assert` on the policy string is modelled by the `none` result. -/
def _load_metadata (t : Table) (species : String) (antibiotics : List String)
    (encoder : Option (List (String × Cell))) (policy : String) : Option Table :=
  if policy = "remove_if_all_missing" ∨ policy = "remove_if_any_missing" ∨
      policy = "keep" then
    some (applyPolicy (prePolicy t species antibiotics encoder) antibiotics policy)
  else
    none

/-! ### Filesystem model for the site validator -/

/-- A filesystem entry: a directory with named children, or a file.
For identifier files the two attributes record whether `pd.read_csv`
succeeds on it and whether the parsed table has a `code` column (the only
observations `_is_id_valid` makes). -/
inductive Entry where
  | dir (nm : String) (children : List Entry) : Entry
  | file (nm : String) (parses : Bool) (hasCode : Bool) : Entry

/-- Name of an entry. -/
def Entry.name : Entry → String
  | .dir n _ => n
  | .file n _ _ => n

/-- Whether an entry is a directory. -/
def Entry.isDir : Entry → Bool
  | .dir _ _ => true
  | .file _ _ _ => false

/-- Names of the directory children of a listing — the `dirs` component of
the first `os.walk` triple over the parent directory. -/
def dirNames (ch : List Entry) : List String :=
  (ch.filter Entry.isDir).map Entry.name

/-- Resolve a child directory by name (`os.path.join(path, nm)` followed by
walking it); `none` when no such directory exists. -/
def lookupDir (ch : List Entry) (nm : String) : Option Entry :=
  ch.find? (fun e => e.isDir && e.name == nm)

/-- Total number of directories a recursive `os.walk` reports strictly
below a directory whose listing is the argument: each visited directory
contributes the length of its `dirs` component (`n_dirs += len(dirs)` in
`_check_id_files`). Hidden directories are walked and counted too — the
hidden-name filter of the source applies to files only. -/
def countDirsList : List Entry → Nat
  | [] => 0
  | .file _ _ _ :: rest => countDirsList rest
  | .dir _ ch :: rest => 1 + countDirsList ch + countDirsList rest

/-- All non-hidden files a recursive `os.walk` reports below a directory
whose listing is the argument (`filenames.extend(... if not
f.startswith('.'))` in `_check_id_files`). -/
def filesList : List Entry → List Entry
  | [] => []
  | .file n p c :: rest =>
      (if n.startsWith "." then [] else [Entry.file n p c]) ++ filesList rest
  | .dir _ ch :: rest => filesList ch ++ filesList rest

/-- `_is_id_valid` (`driams.py` lines 98–114) on a file found by the walk:
the file exists (it was just listed), so validity is parse success plus
presence of the `code` column; any read error makes it invalid. -/
def idFileValid : Entry → Bool
  | .file _ p c => p && c
  | .dir _ _ => true

/-- `_check_id_files` (`driams.py` lines 76–96) on the resolved `id`
entry. When the path does not exist, or is a file, `os.walk` yields
nothing: zero directories and zero files compare equal and the validity
list is empty, so the check passes. -/
def _check_id_files : Option Entry → Bool
  | some (.dir _ ch) =>
      (countDirsList ch == (filesList ch).length) && (filesList ch).all idFileValid
  | _ => true

/-- `_is_site_valid` (`driams.py` lines 34–74) on the resolved site entry.
When the site path does not exist (or is a file) the `os.walk` loop body
never runs and the layout checks are skipped; the function then checks the
(likewise nonexistent) `id` subpath. -/
def _is_site_valid : Option Entry → Bool
  | some (.dir _ ch) =>
      if "id" ∈ dirNames ch then
        if "preprocessed" ∈ dirNames ch ∨ "raw" ∈ dirNames ch then
          _check_id_files (lookupDir ch "id")
        else false
      else false
  | _ => _check_id_files none

/-! ### Spectra loading and the dataset entity -/

/-- A MALDI-TOF spectrum as parsed from a spectrum file: the numeric
(mass, intensity) rows of `pd.read_csv(f, sep=' ', comment='#').values`.
The loader treats it as opaque. -/
def MaldiTofSpectrum := List (Int × Int)

/-- The string interpolation `f'{code}.txt'` applied to a `code` cell. -/
def codeFileName (c : Cell) : String :=
  (match c with
   | .str s => s
   | .num n => toString n
   | .na => "nan") ++ ".txt"

/-- Errors surfaced by the loader: the failed policy `assert` of
`_load_metadata`, or a missing spectrum file (`FileNotFoundError` from
`pd.read_csv`, the spec's `FileAccessError`). -/
inductive LoadError where
  | callerContract : LoadError
  | fileNotFound (filename : String) : LoadError
deriving DecidableEq, Repr

/-- Sequential loading of the spectra list comprehension (`driams.py`
lines 327–331): the first absent file aborts the whole load with a
file-access error, exactly as the first raising `pd.read_csv` would. -/
def readSpectra (fs : String → Option MaldiTofSpectrum) :
    List Cell → Except LoadError (List MaldiTofSpectrum)
  | [] => .ok []
  | c :: rest =>
    match fs (codeFileName c) with
    | none => .error (.fileNotFound (codeFileName c))
    | some s =>
      match readSpectra fs rest with
      | .error e => .error e
      | .ok ss => .ok (s :: ss)

/-- `load_driams_dataset` (`driams.py` lines 230–334), abstracting the
on-disk spectra area as the partial map `fs` from file names to parsed
spectra and the identifier CSV as the already-parsed table `t`. As in the
source, the function returns the *pair* `(spectra, metadata)` — the TODO
at line 333 records that no `DRIAMSDataset` instance is built yet. -/
def load_driams_dataset (fs : String → Option MaldiTofSpectrum) (t : Table)
    (species : String) (antibiotics : List String)
    (encoder : Option (List (String × Cell))) (policy : String) :
    Except LoadError (List MaldiTofSpectrum × Table) :=
  match _load_metadata t species antibiotics encoder policy with
  | none => .error .callerContract
  | some metadata =>
    match readSpectra fs (metadata.rows.map (fun r => r "code")) with
    | .error e => .error e
    | .ok spectra => .ok (spectra, metadata)

/-- The dataset entity: ordered spectra plus the metadata table. -/
structure DRIAMSDataset where
  X : List MaldiTofSpectrum
  y : Table

/-- `DRIAMSDataset.__init__` (`driams.py` lines 189–202): the `assert
len(X) == y.shape[0]` guard raises `AssertionError` on a shape mismatch,
modelled as the error branch. -/
def DRIAMSDataset.init (X : List MaldiTofSpectrum) (y : Table) :
    Except String DRIAMSDataset :=
  if X.length = y.rows.length then .ok ⟨X, y⟩ else .error "AssertionError"

/-! ### Discovery: available antibiotics, multitask property -/

/-- First-character uppercase test, `c[0].isupper()` in the source; the
source presumes a nonempty column name (`c[0]` raises on `""`). -/
def firstIsUpper (s : String) : Bool :=
  match s.toList with
  | [] => false
  | c :: _ => c.isUpper

/-- Whether the character list `pat` occurs at the head of the second
list. -/
def leadsWith : List Char → List Char → Bool
  | [], _ => true
  | _ :: _, [] => false
  | a :: as, b :: bs => a == b && leadsWith as bs

/-- Whether the character list `pat` occurs anywhere inside the second
list. -/
def hasSub (pat : List Char) : List Char → Bool
  | [] => leadsWith pat []
  | c :: rest => leadsWith pat (c :: rest) || hasSub pat rest

/-- Python's substring containment `pat in s`. -/
def strContains (s pat : String) : Bool :=
  hasSub pat.toList s.toList

/-- `_get_available_antibiotics` (`driams.py` lines 128–162), starting
from the column list of the year's identifier table: keep columns whose
first character is uppercase, drop those containing `Unnamed`, and return
them sorted. Python's `sorted` on distinct-or-identical strings is the
insertion sort under the lexicographic order. -/
def _get_available_antibiotics (cols : List String) : List String :=
  ((cols.filter firstIsUpper).filter
      (fun a => !(strContains a "Unnamed"))).insertionSort (· ≤ ·)

/-- A Python runtime value as needed by `is_multitask`: the source
compares a *list* of column names against the *integer* 1. -/
inductive PyVal where
  | int (n : Int) : PyVal
  | strList (xs : List String) : PyVal

/-- Python `==` on such values: values of different types are never
equal (`list.__eq__(int)` is `NotImplemented` and the fallback is
identity, which fails across types). -/
def PyVal.eq : PyVal → PyVal → Bool
  | .int a, .int b => a == b
  | .strList a, .strList b => a == b
  | _, _ => false

/-- `DRIAMSDataset.is_multitask` (`driams.py` lines 204–207), faithful to
the source: `n_cols` is the *list* of non-descriptive columns and the
property returns `n_cols != 1`, a list-vs-integer comparison. -/
def is_multitask (cols : List String) : Bool :=
  !(PyVal.eq (.strList (cols.filter (fun c => !(_metadata_columns.contains c))))
      (.int 1))

/-! ### Concrete example data (the spec's §8 scenario) -/

/-- Example row `{code: A1, species: "Sa", Cipro: "S"}`. -/
def exRow1 : String → Cell := fun c =>
  if c = "code" then .str "A1"
  else if c = "species" then .str "Sa"
  else if c = "Cipro" then .str "S"
  else .na

/-- Example row `{code: A2, species: "Sa", Cipro: "R(1)"}`. -/
def exRow2 : String → Cell := fun c =>
  if c = "code" then .str "A2"
  else if c = "species" then .str "Sa"
  else if c = "Cipro" then .str "R(1)"
  else .na

/-- The two-row example identifier table of the spec's §8 scenario. -/
def exTable : Table :=
  ⟨["code", "bruker_organism_best_match", "species", "Cipro"], [exRow1, exRow2]⟩

/-! ### Helper lemmas -/

/-- On a valid policy string, `_load_metadata` succeeds and is the policy
step applied after the pre-policy pipeline. -/
theorem load_metadata_eq (t : Table) (species : String) (antibiotics : List String)
    (encoder : Option (List (String × Cell))) (policy : String)
    (hp : policy = "remove_if_all_missing" ∨ policy = "remove_if_any_missing" ∨
      policy = "keep") :
    _load_metadata t species antibiotics encoder policy =
      some (applyPolicy (prePolicy t species antibiotics encoder) antibiotics policy) := by
  unfold _load_metadata
  rw [if_pos hp]

/-- Row set of the `remove_if_all_missing` policy step. -/
theorem applyPolicy_all_rows (t : Table) (antibiotics : List String) :
    (applyPolicy t antibiotics "remove_if_all_missing").rows =
      t.rows.filter (fun r => decide (naCount antibiotics r ≠ antibiotics.length)) := rfl

/-- Row set of the `remove_if_any_missing` policy step. -/
theorem applyPolicy_any_rows (t : Table) (antibiotics : List String) :
    (applyPolicy t antibiotics "remove_if_any_missing").rows =
      t.rows.filter (fun r => decide (naCount antibiotics r = 0)) := rfl

/-- The `keep` policy is the identity on the table. -/
theorem applyPolicy_keep (t : Table) (antibiotics : List String) :
    applyPolicy t antibiotics "keep" = t := rfl

/-- A row with `naCount` below the number of antibiotics has a
non-missing antibiotic cell. -/
theorem exists_nonmissing_of_naCount_ne (antibiotics : List String)
    (r : String → Cell) (h : naCount antibiotics r ≠ antibiotics.length) :
    ∃ a ∈ antibiotics, r a ≠ Cell.na := by
  by_contra hc
  push_neg at hc
  apply h
  unfold naCount
  congr 1
  exact List.filter_eq_self.mpr (fun a ha => decide_eq_true (hc a ha))

/-- A row with `naCount` zero has no missing antibiotic cell. -/
theorem no_missing_of_naCount_zero (antibiotics : List String)
    (r : String → Cell) (h : naCount antibiotics r = 0) :
    ∀ a ∈ antibiotics, r a ≠ Cell.na := by
  intro a ha hna
  unfold naCount at h
  rw [List.length_eq_zero] at h
  have : a ∈ antibiotics.filter (fun a => decide (r a = Cell.na)) :=
    List.mem_filter.mpr ⟨ha, decide_eq_true hna⟩
  rw [h] at this
  exact List.not_mem_nil a this

/-- C1: for every identifier table, species, and non-empty antibiotic
list, the table `_load_metadata` returns satisfies the selected
missing-value policy: under `remove_if_all_missing` every retained row has
a non-missing value in some requested column; under
`remove_if_any_missing` every retained row has no missing value among the
requested columns; under `keep` the retained row count equals the row
count of the table entering the policy step. -/
theorem C1_missing_value_policies (t : Table) (species : String)
    (antibiotics : List String) (encoder : Option (List (String × Cell)))
    (hne : antibiotics ≠ []) :
    (∀ res, _load_metadata t species antibiotics encoder "remove_if_all_missing" = some res →
      ∀ r ∈ res.rows, ∃ a ∈ antibiotics, r a ≠ Cell.na) ∧
    (∀ res, _load_metadata t species antibiotics encoder "remove_if_any_missing" = some res →
      ∀ r ∈ res.rows, ∀ a ∈ antibiotics, r a ≠ Cell.na) ∧
    (∀ res, _load_metadata t species antibiotics encoder "keep" = some res →
      res.rows.length = (prePolicy t species antibiotics encoder).rows.length) := by
  refine ⟨?_, ?_, ?_⟩
  · intro res h r hr
    rw [load_metadata_eq _ _ _ _ _ (Or.inl rfl), Option.some_inj] at h
    subst h
    rw [applyPolicy_all_rows] at hr
    have := (List.mem_filter.mp hr).2
    exact exists_nonmissing_of_naCount_ne _ _ (of_decide_eq_true this)
  · intro res h r hr
    rw [load_metadata_eq _ _ _ _ _ (Or.inr (Or.inl rfl)), Option.some_inj] at h
    subst h
    rw [applyPolicy_any_rows] at hr
    have := (List.mem_filter.mp hr).2
    exact no_missing_of_naCount_zero _ _ (of_decide_eq_true this)
  · intro res h
    rw [load_metadata_eq _ _ _ _ _ (Or.inr (Or.inr rfl)), Option.some_inj,
      applyPolicy_keep] at h
    subst h
    rfl

/-- Witness for C1 at the spec's example table (`Sa`, antibiotic `Cipro`,
no encoder). -/
theorem C1_missing_value_policies_witness :
    (["Cipro"] ≠ ([] : List String)) ∧
    ((∀ res, _load_metadata exTable "Sa" ["Cipro"] none "remove_if_all_missing" = some res →
      ∀ r ∈ res.rows, ∃ a ∈ ["Cipro"], r a ≠ Cell.na) ∧
    (∀ res, _load_metadata exTable "Sa" ["Cipro"] none "remove_if_any_missing" = some res →
      ∀ r ∈ res.rows, ∀ a ∈ ["Cipro"], r a ≠ Cell.na) ∧
    (∀ res, _load_metadata exTable "Sa" ["Cipro"] none "keep" = some res →
      res.rows.length = (prePolicy exTable "Sa" ["Cipro"] none).rows.length)) :=
  ⟨by decide, C1_missing_value_policies exTable "Sa" ["Cipro"] none (by decide)⟩

/-- C2: in `_load_metadata` a supplied encoder is applied to the projected
table strictly before the missing-value policy, so a species-matching row
whose every requested-antibiotic value is a raw token the encoder maps to
the missing marker (hence non-missing before encoding) is dropped under
`remove_if_all_missing`: its encoded image is not among the retained
rows. -/
theorem C2_encoder_before_policy (t : Table) (species : String)
    (antibiotics : List String) (enc : List (String × Cell)) (res : Table)
    (h : _load_metadata t species antibiotics (some enc) "remove_if_all_missing" =
      some res)
    (r : String → Cell) (hr : r ∈ t.rows) (hsp : r "species" = Cell.str species)
    (hne : antibiotics ≠ [])
    (hcomp : ∀ a ∈ antibiotics, ∃ s, r a = Cell.str s ∧ a ∉ _metadata_columns ∧
      lookupEnc enc s = some Cell.na) :
    _load_metadata t species antibiotics (some enc) "remove_if_all_missing" =
      some (applyPolicy
        (LabelEncoder.fit_transform enc _metadata_columns
          (projectCols (speciesFilter t species) antibiotics))
        antibiotics "remove_if_all_missing") ∧
    LabelEncoder.transformRow enc _metadata_columns r ∉ res.rows := by
  constructor
  · exact load_metadata_eq _ _ _ _ _ (Or.inl rfl)
  · have key : ∀ a ∈ antibiotics,
        LabelEncoder.transformRow enc _metadata_columns r a = Cell.na := by
      intro a ha
      obtain ⟨s, hs, hnm, hl⟩ := hcomp a ha
      unfold LabelEncoder.transformRow
      rw [if_neg hnm, hs]
      show (lookupEnc enc s).getD (Cell.str s) = Cell.na
      rw [hl]
      rfl
    intro hmem
    rw [load_metadata_eq _ _ _ _ _ (Or.inl rfl), Option.some_inj] at h
    subst h
    rw [applyPolicy_all_rows] at hmem
    apply of_decide_eq_true (List.mem_filter.mp hmem).2
    unfold naCount
    congr 1
    exact List.filter_eq_self.mpr (fun a ha => decide_eq_true (key a ha))

/-- Witness for C2: on the spec's example table, row `A2` (whose only
`Cipro` value is the raw token `R(1)`) matches the species filter, and its
encoded image is absent from the retained rows. -/
theorem C2_encoder_before_policy_witness :
    exRow2 ∈ exTable.rows ∧ exRow2 "species" = Cell.str "Sa" ∧
    (_load_metadata exTable "Sa" ["Cipro"] (some DRIAMSLabelEncoder.encodings)
        "remove_if_all_missing" =
      some (applyPolicy
        (LabelEncoder.fit_transform DRIAMSLabelEncoder.encodings _metadata_columns
          (projectCols (speciesFilter exTable "Sa") ["Cipro"]))
        ["Cipro"] "remove_if_all_missing") ∧
    LabelEncoder.transformRow DRIAMSLabelEncoder.encodings _metadata_columns exRow2 ∉
      (applyPolicy (prePolicy exTable "Sa" ["Cipro"] (some DRIAMSLabelEncoder.encodings))
        ["Cipro"] "remove_if_all_missing").rows) :=
  ⟨List.mem_cons_of_mem _ (List.mem_cons_self _ _), by decide,
    C2_encoder_before_policy exTable "Sa" ["Cipro"] DRIAMSLabelEncoder.encodings
      (applyPolicy (prePolicy exTable "Sa" ["Cipro"] (some DRIAMSLabelEncoder.encodings))
        ["Cipro"] "remove_if_all_missing")
      rfl exRow2 (List.mem_cons_of_mem _ (List.mem_cons_self _ _)) (by decide)
      (by decide)
      (by
        intro a ha
        rw [List.mem_singleton] at ha
        subst ha
        exact ⟨"R(1)", by decide, by decide, by decide⟩)⟩

/-- C3: the `DRIAMSLabelEncoder` mapping is fixed and deterministic:
`R` and `I` map to 1, `S` to 0, each compound/ambiguous token to the
missing marker, any token outside the vocabulary passes through
unchanged, and cells in the descriptive columns are never modified. -/
theorem C3_driams_label_encoder (s : String)
    (hs : lookupEnc DRIAMSLabelEncoder.encodings s = none)
    (r : String → Cell) (c : String) (hc : c ∈ _metadata_columns) :
    cellEncode DRIAMSLabelEncoder.encodings (.str "R") = .num 1 ∧
    cellEncode DRIAMSLabelEncoder.encodings (.str "I") = .num 1 ∧
    cellEncode DRIAMSLabelEncoder.encodings (.str "S") = .num 0 ∧
    cellEncode DRIAMSLabelEncoder.encodings (.str "R(1)") = .na ∧
    cellEncode DRIAMSLabelEncoder.encodings (.str "L(1)") = .na ∧
    cellEncode DRIAMSLabelEncoder.encodings (.str "I(1)") = .na ∧
    cellEncode DRIAMSLabelEncoder.encodings (.str "I(1), S(1)") = .na ∧
    cellEncode DRIAMSLabelEncoder.encodings (.str "R(1), I(1)") = .na ∧
    cellEncode DRIAMSLabelEncoder.encodings (.str "R(1), S(1)") = .na ∧
    cellEncode DRIAMSLabelEncoder.encodings (.str "R(1), I(1), S(1)") = .na ∧
    cellEncode DRIAMSLabelEncoder.encodings (.str s) = .str s ∧
    DRIAMSLabelEncoder.transformRow r c = r c := by
  refine ⟨rfl, rfl, rfl, rfl, rfl, rfl, rfl, rfl, rfl, rfl, ?_, ?_⟩
  · show (lookupEnc DRIAMSLabelEncoder.encodings s).getD (Cell.str s) = Cell.str s
    rw [hs]
    rfl
  · unfold DRIAMSLabelEncoder.transformRow LabelEncoder.transformRow
    rw [if_pos hc]

/-- Witness for C3: `X` is outside the vocabulary and passes through; the
descriptive column `code` of the example row is untouched. -/
theorem C3_driams_label_encoder_witness :
    lookupEnc DRIAMSLabelEncoder.encodings "X" = none ∧
    (cellEncode DRIAMSLabelEncoder.encodings (.str "R") = .num 1 ∧
    cellEncode DRIAMSLabelEncoder.encodings (.str "I") = .num 1 ∧
    cellEncode DRIAMSLabelEncoder.encodings (.str "S") = .num 0 ∧
    cellEncode DRIAMSLabelEncoder.encodings (.str "R(1)") = .na ∧
    cellEncode DRIAMSLabelEncoder.encodings (.str "L(1)") = .na ∧
    cellEncode DRIAMSLabelEncoder.encodings (.str "I(1)") = .na ∧
    cellEncode DRIAMSLabelEncoder.encodings (.str "I(1), S(1)") = .na ∧
    cellEncode DRIAMSLabelEncoder.encodings (.str "R(1), I(1)") = .na ∧
    cellEncode DRIAMSLabelEncoder.encodings (.str "R(1), S(1)") = .na ∧
    cellEncode DRIAMSLabelEncoder.encodings (.str "R(1), I(1), S(1)") = .na ∧
    cellEncode DRIAMSLabelEncoder.encodings (.str "X") = .str "X" ∧
    DRIAMSLabelEncoder.transformRow exRow1 "code" = exRow1 "code") :=
  ⟨by decide, C3_driams_label_encoder "X" (by decide) exRow1 "code" (by decide)⟩

/-- The identifier-area deviation, following the specification's wording:
the count of specimen subdirectories under `id` differs from the count of
non-hidden files found within them, or some identifier file fails to parse
or lacks a `code` column. -/
def idDeviation : Option Entry → Prop
  | some (.dir _ ch) =>
      countDirsList ch ≠ (filesList ch).length ∨
      ∃ f ∈ filesList ch, idFileValid f = false
  | _ => False

/-- A structural deviation of a site directory, following the
specification's wording: the `id` subdirectory is absent, or neither `raw`
nor `preprocessed` exists as a subdirectory, or the identifier area
deviates. -/
def structuralDeviation (ch : List Entry) : Prop :=
  "id" ∉ dirNames ch ∨
  ("preprocessed" ∉ dirNames ch ∧ "raw" ∉ dirNames ch) ∨
  idDeviation (lookupDir ch "id")

/-- `_check_id_files` returns `false` exactly on a deviating identifier
area. -/
theorem check_id_files_false_iff (o : Option Entry) :
    _check_id_files o = false ↔ idDeviation o := by
  match o with
  | none => simp [_check_id_files, idDeviation]
  | some (.file n p c) => simp [_check_id_files, idDeviation]
  | some (.dir n ch) =>
    show ((countDirsList ch == (filesList ch).length) &&
      (filesList ch).all idFileValid) = false ↔ _
    rw [Bool.and_eq_false_iff]
    show _ ↔ countDirsList ch ≠ (filesList ch).length ∨
      ∃ f ∈ filesList ch, idFileValid f = false
    constructor
    · rintro (hc | ha)
      · exact Or.inl (by simpa using hc)
      · refine Or.inr ?_
        rw [Bool.eq_false_iff] at ha
        by_contra hall
        push_neg at hall
        exact ha (List.all_eq_true.mpr
          (fun f hf => by simpa using hall f hf))
    · rintro (hc | ⟨f, hf, hv⟩)
      · exact Or.inl (by simpa using hc)
      · refine Or.inr (Bool.eq_false_iff.mpr (fun ha => ?_))
        have := List.all_eq_true.mp ha f hf
        rw [hv] at this
        exact Bool.false_ne_true this

/-- C4: for every existing site directory, `_is_site_valid` returns
`false` exactly when a structural deviation is present; the check is a
total boolean function of the directory tree, so it never raises. -/
theorem C4_site_validity (nm : String) (ch : List Entry) :
    _is_site_valid (some (.dir nm ch)) = false ↔ structuralDeviation ch := by
  show (if "id" ∈ dirNames ch then
      if "preprocessed" ∈ dirNames ch ∨ "raw" ∈ dirNames ch then
        _check_id_files (lookupDir ch "id")
      else false
    else false) = false ↔ _
  unfold structuralDeviation
  by_cases h1 : "id" ∈ dirNames ch
  · by_cases h2 : "preprocessed" ∈ dirNames ch ∨ "raw" ∈ dirNames ch
    · rw [if_pos h1, if_pos h2, check_id_files_false_iff]
      constructor
      · exact fun hd => Or.inr (Or.inr hd)
      · rintro (hc | ⟨hp, hr⟩ | hd)
        · exact absurd h1 hc
        · exact absurd h2 (by push_neg; exact ⟨hp, hr⟩)
        · exact hd
    · rw [if_pos h1, if_neg h2]
      push_neg at h2
      exact ⟨fun _ => Or.inr (Or.inl h2), fun _ => rfl⟩
  · rw [if_neg h1]
    exact ⟨fun _ => Or.inl h1, fun _ => rfl⟩

/-- C10: for a site name whose directory does not exist, the walk yields
no entries, the layout checks are skipped, the identifier check compares
zero directories against zero files, and the site is reported valid. -/
theorem C10_nonexistent_site_valid :
    _is_site_valid none = true ∧ _check_id_files none = true :=
  ⟨rfl, rfl⟩

/-- A successful `readSpectra` run returns one spectrum per code, in code
order, each loaded from the file named after its code. -/
theorem readSpectra_ok (fs : String → Option MaldiTofSpectrum) :
    ∀ (codes : List Cell) (ss : List MaldiTofSpectrum),
    readSpectra fs codes = .ok ss →
    ss.length = codes.length ∧
    ∀ i (hi : i < codes.length) (hj : i < ss.length),
      fs (codeFileName (codes.get ⟨i, hi⟩)) = some (ss.get ⟨i, hj⟩) := by
  intro codes
  induction codes with
  | nil =>
    intro ss h
    obtain rfl : ([] : List MaldiTofSpectrum) = ss := by
      injection h
    exact ⟨rfl, fun i hi => absurd hi (Nat.not_lt_zero i)⟩
  | cons c rest ih =>
    intro ss h
    unfold readSpectra at h
    cases hf : fs (codeFileName c) with
    | none =>
      rw [hf] at h
      exact Except.noConfusion h
    | some s =>
      rw [hf] at h
      cases hr : readSpectra fs rest with
      | error e =>
        rw [hr] at h
        exact Except.noConfusion h
      | ok ss2 =>
        rw [hr] at h
        obtain rfl : s :: ss2 = ss := by injection h
        obtain ⟨hlen, hidx⟩ := ih ss2 hr
        refine ⟨by simp [hlen], ?_⟩
        intro i hi hj
        match i with
        | 0 => exact hf
        | Nat.succ k =>
          exact hidx k (Nat.lt_of_succ_lt_succ hi) (Nat.lt_of_succ_lt_succ hj)

/-- C5 (alignment part): whenever `load_driams_dataset` succeeds, the
value it returns is the *pair* of the spectra list and the metadata table,
with as many spectra as metadata rows, and the spectrum at index `i`
loaded from the file named by the code at metadata row `i`. (The
packaging into a `DRIAMSDataset` promised by the docstring does not
happen: the source returns the bare pair, see the TODO at
`driams.py` line 333.) -/
theorem C5_pair_alignment (fs : String → Option MaldiTofSpectrum) (t : Table)
    (species : String) (antibiotics : List String)
    (encoder : Option (List (String × Cell))) (policy : String)
    (spectra : List MaldiTofSpectrum) (md : Table)
    (h : load_driams_dataset fs t species antibiotics encoder policy =
      .ok (spectra, md)) :
    spectra.length = md.rows.length ∧
    ∀ i (hi : i < md.rows.length) (hj : i < spectra.length),
      fs (codeFileName (md.rows.get ⟨i, hi⟩ "code")) = some (spectra.get ⟨i, hj⟩) := by
  unfold load_driams_dataset at h
  cases hm : _load_metadata t species antibiotics encoder policy with
  | none =>
    rw [hm] at h
    exact Except.noConfusion h
  | some md2 =>
    rw [hm] at h
    have h1 : (match readSpectra fs (md2.rows.map (fun r => r "code")) with
        | Except.error e => Except.error e
        | Except.ok ss => Except.ok (ss, md2)) = Except.ok (spectra, md) := h
    cases hr : readSpectra fs (md2.rows.map (fun r => r "code")) with
    | error e =>
      rw [hr] at h1
      exact Except.noConfusion h1
    | ok ss =>
      rw [hr] at h1
      injection h1 with h2
      rw [Prod.mk.injEq] at h2
      obtain ⟨rfl, rfl⟩ := h2
      obtain ⟨hlen, hidx⟩ := readSpectra_ok fs _ _ hr
      rw [List.length_map] at hlen
      refine ⟨hlen, ?_⟩
      intro i hi hj
      have := hidx i (by rw [List.length_map]; exact hi) hj
      simp only [List.get_eq_getElem] at this ⊢
      rwa [List.getElem_map] at this

/-- The example spectrum used by the loader witnesses. -/
def exSpectrum : MaldiTofSpectrum := [(2000, 5)]

/-- A spectra store holding a file for codes `A1` and `A2`. -/
def exFS : String → Option MaldiTofSpectrum := fun f =>
  if f = "A1.txt" then some exSpectrum
  else if f = "A2.txt" then some exSpectrum
  else none

/-- The metadata table of the example load under the `keep` policy. -/
def exMdKeep : Table :=
  applyPolicy (prePolicy exTable "Sa" ["Cipro"] none) ["Cipro"] "keep"

/-- Witness for C5 at a concrete successful load of the example table. -/
theorem C5_pair_alignment_witness :
    [exSpectrum, exSpectrum].length = exMdKeep.rows.length ∧
    ∀ i (hi : i < exMdKeep.rows.length) (hj : i < [exSpectrum, exSpectrum].length),
      exFS (codeFileName (exMdKeep.rows.get ⟨i, hi⟩ "code")) =
        some ([exSpectrum, exSpectrum].get ⟨i, hj⟩) :=
  C5_pair_alignment exFS exTable "Sa" ["Cipro"] none "keep"
    [exSpectrum, exSpectrum] exMdKeep rfl

/-- If some code of a list has no file in the store, `readSpectra` fails
with a file-not-found error. -/
theorem readSpectra_error_of_missing (fs : String → Option MaldiTofSpectrum) :
    ∀ codes : List Cell, (∃ c ∈ codes, fs (codeFileName c) = none) →
    ∃ f, readSpectra fs codes = .error (LoadError.fileNotFound f) := by
  intro codes
  induction codes with
  | nil =>
    rintro ⟨c, hc, _⟩
    exact absurd hc (List.not_mem_nil c)
  | cons c rest ih =>
    rintro ⟨c2, hc2, hmiss⟩
    unfold readSpectra
    cases hf : fs (codeFileName c) with
    | none => exact ⟨codeFileName c, rfl⟩
    | some s =>
      have hc2r : c2 ∈ rest := by
        rcases List.mem_cons.mp hc2 with rfl | hin
        · rw [hf] at hmiss
          exact Option.noConfusion hmiss
        · exact hin
      obtain ⟨f, hfe⟩ := ih ⟨c2, hc2r, hmiss⟩
      rw [hfe]
      exact ⟨f, rfl⟩

/-- C6: when the filtered metadata retains a row whose code has no
spectrum file in the selected area, `load_driams_dataset` fails with a
file-access error; no `.ok` (partial or otherwise) result is produced. -/
theorem C6_missing_file_is_fatal (fs : String → Option MaldiTofSpectrum)
    (t : Table) (species : String) (antibiotics : List String)
    (encoder : Option (List (String × Cell))) (policy : String) (md : Table)
    (hm : _load_metadata t species antibiotics encoder policy = some md)
    (r : String → Cell) (hr : r ∈ md.rows)
    (hmiss : fs (codeFileName (r "code")) = none) :
    (∃ f, load_driams_dataset fs t species antibiotics encoder policy =
      .error (LoadError.fileNotFound f)) ∧
    ∀ result, load_driams_dataset fs t species antibiotics encoder policy ≠
      .ok result := by
  obtain ⟨f, hfe⟩ := readSpectra_error_of_missing fs
    (md.rows.map (fun row => row "code"))
    ⟨r "code", List.mem_map_of_mem _ hr, hmiss⟩
  have hload : load_driams_dataset fs t species antibiotics encoder policy =
      .error (LoadError.fileNotFound f) := by
    unfold load_driams_dataset
    rw [hm]
    show (match readSpectra fs (md.rows.map (fun row => row "code")) with
        | Except.error e => Except.error e
        | Except.ok ss => Except.ok (ss, md)) =
      Except.error (LoadError.fileNotFound f)
    rw [hfe]
  refine ⟨⟨f, hload⟩, ?_⟩
  intro result hok
  rw [hload] at hok
  exact Except.noConfusion hok

/-- An empty spectra store. -/
def emptyFS : String → Option MaldiTofSpectrum := fun _ => none

/-- Witness for C6: loading the example table against an empty spectra
store fails with a file-access error and never returns a dataset. -/
theorem C6_missing_file_is_fatal_witness :
    (∃ f, load_driams_dataset emptyFS exTable "Sa" ["Cipro"] none "keep" =
      .error (LoadError.fileNotFound f)) ∧
    ∀ result, load_driams_dataset emptyFS exTable "Sa" ["Cipro"] none "keep" ≠
      .ok result :=
  C6_missing_file_is_fatal emptyFS exTable "Sa" ["Cipro"] none "keep" exMdKeep
    rfl exRow1
    (show exRow1 ∈ ([exRow1, exRow2] : List (String → Cell)) from
      List.mem_cons_self _ _)
    rfl

/-- C7: constructing the dataset entity succeeds exactly when the number
of spectra equals the metadata row count, and fails with the
shape-mismatch assertion error otherwise. -/
theorem C7_dataset_shape_guard (X : List MaldiTofSpectrum) (y : Table) :
    (X.length = y.rows.length → DRIAMSDataset.init X y = .ok ⟨X, y⟩) ∧
    (X.length ≠ y.rows.length →
      DRIAMSDataset.init X y = .error "AssertionError") := by
  constructor
  · intro h
    unfold DRIAMSDataset.init
    rw [if_pos h]
  · intro h
    unfold DRIAMSDataset.init
    rw [if_neg h]

/-- Witness for C7: two spectra against the two-row example table
succeed; one spectrum against it fails with the assertion error. -/
theorem C7_dataset_shape_guard_witness :
    DRIAMSDataset.init [exSpectrum, exSpectrum] exTable =
      .ok ⟨[exSpectrum, exSpectrum], exTable⟩ ∧
    DRIAMSDataset.init [exSpectrum] exTable = .error "AssertionError" :=
  ⟨(C7_dataset_shape_guard [exSpectrum, exSpectrum] exTable).1 rfl,
   (C7_dataset_shape_guard [exSpectrum] exTable).2 (by decide)⟩

/-- C8: the available-antibiotics query returns a sorted list holding
exactly the column names that begin with an uppercase character and do
not contain `Unnamed`; on the example column list it returns
`["Ciprofloxacin"]`. (Column names are nonempty, as `c[0]` in the source
presumes.) -/
theorem C8_available_antibiotics (cols : List String)
    (hno : ∀ c ∈ cols, c ≠ "") :
    (_get_available_antibiotics cols).Sorted (· ≤ ·) ∧
    (∀ a, a ∈ _get_available_antibiotics cols ↔
      a ∈ cols ∧ firstIsUpper a = true ∧ strContains a "Unnamed" = false) ∧
    _get_available_antibiotics
      ["code", "bruker_organism_best_match", "species", "Ciprofloxacin",
        "Unnamed: 7"] = ["Ciprofloxacin"] := by
  refine ⟨List.sorted_insertionSort _ _, ?_, by decide⟩
  intro a
  unfold _get_available_antibiotics
  rw [List.mem_insertionSort]
  constructor
  · intro h
    have h1 := List.mem_filter.mp h
    have h2 := List.mem_filter.mp h1.1
    refine ⟨h2.1, h2.2, ?_⟩
    have := h1.2
    rwa [Bool.not_eq_true'] at this
  · rintro ⟨hmem, hup, hun⟩
    refine List.mem_filter.mpr ⟨List.mem_filter.mpr ⟨hmem, hup⟩, ?_⟩
    rw [Bool.not_eq_true']
    exact hun

/-- Witness for C8 at the example column list of the spec. -/
theorem C8_available_antibiotics_witness :
    (∀ c ∈ ["code", "bruker_organism_best_match", "species", "Ciprofloxacin",
      "Unnamed: 7"], c ≠ "") ∧
    ((_get_available_antibiotics
        ["code", "bruker_organism_best_match", "species", "Ciprofloxacin",
          "Unnamed: 7"]).Sorted (· ≤ ·) ∧
    (∀ a, a ∈ _get_available_antibiotics
        ["code", "bruker_organism_best_match", "species", "Ciprofloxacin",
          "Unnamed: 7"] ↔
      a ∈ ["code", "bruker_organism_best_match", "species", "Ciprofloxacin",
        "Unnamed: 7"] ∧ firstIsUpper a = true ∧
        strContains a "Unnamed" = false) ∧
    _get_available_antibiotics
      ["code", "bruker_organism_best_match", "species", "Ciprofloxacin",
        "Unnamed: 7"] = ["Ciprofloxacin"]) :=
  ⟨by decide,
    C8_available_antibiotics
      ["code", "bruker_organism_best_match", "species", "Ciprofloxacin",
        "Unnamed: 7"] (by decide)⟩

/-- C9 (code behaviour at the failing input): `is_multitask` compares the
*list* of non-descriptive columns against the *integer* 1, so it returns
`true` for every column list — in particular for a table with exactly one
non-descriptive label column, where the claim requires `false`. -/
theorem C9_is_multitask_always_true (cols : List String) :
    is_multitask cols = true ∧
    is_multitask ["code", "bruker_organism_best_match", "species",
      "Ciprofloxacin"] = true :=
  ⟨rfl, rfl⟩

